import Mathlib

/-!
Shallow embedding of `apis/tankerkoenig.js` (MMM-Fuel).

JavaScript numbers used for prices are modelled as rationals, coordinates as
real numbers.  Dynamically typed fields that hold either a number or a string
in the source (the `dist` field) are modelled by the sum type `JsVal`.
The asynchronous fetch calls are modelled by passing the parsed responses as
explicit arguments: one area response and one detail response per station id.
-/

namespace MMMFuel

/-- Fuel types known to the provider; the configuration's `types` and `sortBy`
fields range over these keys (source lines 151-153, 227-228). -/
inductive FuelType where
  | diesel
  | e5
  | e10
deriving DecidableEq, Repr

/-- Dynamically typed JavaScript value held in the `dist` field: the area
endpoint supplies a number, detail mode stores the string produced by
`toFixed(1)` (source line 197), and a detail response initially has no
`dist` field at all (`undef`). -/
inductive JsVal where
  | num : ℚ → JsVal
  | str : String → JsVal
  | undef : JsVal
deriving DecidableEq

/-- Test whether a `JsVal` is a number. -/
def JsVal.isNum : JsVal → Bool
  | JsVal.num _ => true
  | _ => false

/-- Raw gas-station record as delivered by the tankerkoenig API
(spec section 3, "Raw Station"). -/
structure Station where
  id : String
  name : String
  brand : String
  street : String
  houseNumber : String
  postCode : ℕ
  place : String
  lat : ℝ
  lng : ℝ
  isOpen : Bool
  diesel : ℚ
  e5 : ℚ
  e10 : ℚ
  dist : JsVal

/-- Price of the given fuel type on a raw station: models the dynamic field
access `station[config.types[i]]` (source line 77). -/
def Station.price (s : Station) : FuelType → ℚ
  | FuelType.diesel => s.diesel
  | FuelType.e5 => s.e5
  | FuelType.e10 => s.e10

/-- Nested price object built by the normalizer (source lines 150-154). -/
structure Prices where
  diesel : ℚ
  e5 : ℚ
  e10 : ℚ

/-- Normalized station: the raw station object after `normalizeStations`
added the `prices`, `distance` and `address` fields in place
(source lines 148-159). -/
structure NStation extends Station where
  prices : Prices
  distance : JsVal
  address : String

/-- Price lookup `a[config.sortBy]` on a normalized station (source line 58);
the normalizer keeps the flat fuel-price fields on the object. -/
def NStation.price (s : NStation) (t : FuelType) : ℚ := s.toStation.price t

/-- Module configuration (source lines 223-229 and the fields read by the
code: `lat`, `lng`, `radius`, `api_key`, `sortBy`, `types`, `showOpenOnly`,
`onlyStations`). -/
structure Config where
  lat : ℝ
  lng : ℝ
  radius : ℚ
  api_key : String
  sortBy : FuelType
  types : List FuelType
  showOpenOnly : Bool
  onlyStations : List String

/-- Result object returned by `getData` (source lines 208-214). -/
structure Result where
  types : List String
  unit : String
  currency : String
  byPrice : List NStation
  byDistance : List NStation

/-- Value of `Number.MIN_SAFE_INTEGER` returned by the comparator
(source line 59). -/
def minSafeInteger : ℚ := -(2 ^ 53 - 1)

/-- Value of `Number.MAX_SAFE_INTEGER` returned by the comparator
(source line 61). -/
def maxSafeInteger : ℚ := 2 ^ 53 - 1

/-- Comparator `sortByPrice` (source lines 57-65): zero price on `b` wins for
`a`, zero price on `a` loses, otherwise the numeric difference. -/
def sortByPrice (cfg : Config) (a b : NStation) : ℚ :=
  if b.price cfg.sortBy = 0 then minSafeInteger
  else if a.price cfg.sortBy = 0 then maxSafeInteger
  else a.price cfg.sortBy - b.price cfg.sortBy

/-- Loop body of `filterStations` (source lines 76-80): iterate over the
configured fuel types, rejecting the station on a non-positive price or, while
inside the loop, when only open stations are requested and it is closed. -/
def filterStationsGo (cfg : Config) (station : Station) : List FuelType → Bool
  | [] => true
  | t :: rest =>
    if station.price t ≤ 0 ∨ (cfg.showOpenOnly = true ∧ station.isOpen = false) then false
    else filterStationsGo cfg station rest

/-- Station filter used in area mode, `filterStations` (source lines 75-83). -/
def filterStations (cfg : Config) (station : Station) : Bool :=
  filterStationsGo cfg station cfg.types

/-- Loop body of `checkStation` (source lines 127-131), textually identical to
the loop of `filterStations`. -/
def checkStationGo (cfg : Config) (station : Station) : List FuelType → Bool
  | [] => true
  | t :: rest =>
    if station.price t ≤ 0 ∨ (cfg.showOpenOnly = true ∧ station.isOpen = false) then false
    else checkStationGo cfg station rest

/-- Station filter used in detail mode, `checkStation` (source lines 126-134). -/
def checkStation (cfg : Config) (station : Station) : Bool :=
  checkStationGo cfg station cfg.types

/-- Little-endian decimal digits of a natural number, with explicit fuel so
the recursion is structural; `decDigitsAux f n` is the digit list of `n`
whenever `n ≤ f`. -/
def decDigitsAux : ℕ → ℕ → List ℕ
  | 0, _ => []
  | f + 1, n => if n = 0 then [] else n % 10 :: decDigitsAux f (n / 10)

/-- Decimal representation of a natural number as a string; models the
JavaScript number-to-string conversion performed by the template literal
`` `0${value.postCode}` `` (source line 156). -/
def decRepr (n : ℕ) : String :=
  if n = 0 then "0" else String.mk (((decDigitsAux n n).map Nat.digitChar).reverse)

/-- Model of JavaScript `String.prototype.slice(-n)` for `n ≥ 1`: the last
`min n length` characters of the string (source line 156 uses `slice(-5)`). -/
def jsSliceLast (s : String) (n : ℕ) : String :=
  String.mk (s.data.drop (s.data.length - n))

/-- Normalizer callback `normalizeStations` (source lines 148-159): adds the
nested price object, copies `dist` into `distance`, and formats the address
from one prepended zero, the postal code, place, street and house number. -/
def normalizeStations (value : Station) : NStation :=
  { toStation := value
    prices := { diesel := value.diesel, e5 := value.e5, e10 := value.e10 }
    distance := value.dist
    address := jsSliceLast ("0" ++ decRepr value.postCode) 5 ++ " " ++ value.place ++ " - "
      ++ value.street ++ " " ++ value.houseNumber }

/-- Specification-side formatter, following the spec's words: the postal code
"zero-padded to five digits (right-aligned, as a string)". -/
def zeroPad5 (n : ℕ) : String :=
  if 5 ≤ (decRepr n).data.length then decRepr n
  else String.mk (List.replicate (5 - (decRepr n).data.length) '0') ++ decRepr n

/-- Coordinate pair `{lat, lng}` in degrees. -/
structure Pos where
  lat : ℝ
  lng : ℝ

/-- Earth radius in meter, `const earth = 6371e3` (source line 14). -/
noncomputable def earth : ℝ := 6371e3

/-- Degree-to-radian conversion `deg2rad` (source lines 92-96). -/
noncomputable def deg2rad (degrees : ℝ) : ℝ := degrees * (Real.pi / 180)

/-- Model of JavaScript `Math.atan2 y x` on real numbers (IEEE semantics for
finite arguments, with `atan2 0 0 = 0`); used on source line 114. -/
noncomputable def atan2 (y x : ℝ) : ℝ :=
  if 0 < x then Real.arctan (y / x)
  else if x < 0 ∧ 0 ≤ y then Real.arctan (y / x) + Real.pi
  else if x < 0 ∧ y < 0 then Real.arctan (y / x) - Real.pi
  else if x = 0 ∧ 0 < y then Real.pi / 2
  else if x = 0 ∧ y < 0 then -(Real.pi / 2)
  else 0

/-- Great-circle distance `getDistance` (source lines 106-116): haversine
formula over the two positions, in kilometers. -/
noncomputable def getDistance (pos1 pos2 : Pos) : ℝ :=
  let dLat := deg2rad (pos2.lat - pos1.lat)
  let dLon := deg2rad (pos2.lng - pos1.lng)
  let distance := Real.sin (dLat / 2) * Real.sin (dLat / 2) +
    Real.cos (deg2rad pos1.lat) * Real.cos (deg2rad pos2.lat) *
    Real.sin (dLon / 2) * Real.sin (dLon / 2)
  let c := 2 * atan2 (Real.sqrt distance) (Real.sqrt (1 - distance))
  earth * c / 1000

/-- Haversine of an angle, `sin² (θ/2)`; specification-side helper. -/
noncomputable def hav (θ : ℝ) : ℝ := Real.sin (θ / 2) ^ 2

/-- Specification-side distance function, following the spec's words:
"great-circle distance using the haversine formula with Earth radius
6,371,000 meters; converts degrees to radians; returns kilometers". -/
noncomputable def distanceKmSpec (p q : Pos) : ℝ :=
  let a := hav (deg2rad (q.lat - p.lat)) +
    Real.cos (deg2rad p.lat) * Real.cos (deg2rad q.lat) * hav (deg2rad (q.lng - p.lng))
  let c := 2 * atan2 (Real.sqrt a) (Real.sqrt (1 - a))
  6371000 * c / 1000

/-- Model of JavaScript `Number.prototype.toFixed(1)` for the nonnegative
finite values arising here (distances): the number rounded to one decimal
place, rendered as a string (source line 197). -/
noncomputable def toFixed1 (x : ℝ) : String :=
  let n : ℤ := round (10 * x)
  toString (n / 10) ++ "." ++ toString (n % 10).natAbs

/-- Parsed JSON body of an area-endpoint response (source lines 175-181). -/
structure AreaResp where
  ok : Bool
  stations : List Station

/-- Parsed JSON body of a detail-endpoint response (source lines 189-196). -/
structure DetailResp where
  ok : Bool
  station : Station

/-- Distance attachment in detail mode, source line 197:
`station["dist"] = getDistance(station, {lat, lng}).toFixed(1)` — note that
the stored value is the string returned by `toFixed`. -/
noncomputable def attachDist (cfg : Config) (station : Station) : Station :=
  { station with
    dist := JsVal.str (toFixed1 (getDistance ⟨station.lat, station.lng⟩ ⟨cfg.lat, cfg.lng⟩)) }

/-- Model of `Array.prototype.sort` with the `sortByPrice` comparator
(source line 206).  ECMAScript sorting is stable and keeps `a` before `b`
when the comparator returns a non-positive value; it is modelled by a stable
insertion sort with relation `sortByPrice a b ≤ 0`. -/
def jsSort (cfg : Config) (l : List NStation) : List NStation :=
  List.insertionSort (fun a b => sortByPrice cfg a b ≤ 0) l

/-- Assembly of the result object (source lines 203-214): normalize every
retained station, sort a copy by price, and return both orderings. -/
def assembleResult (cfg : Config) (stations : List Station) : Result :=
  let norm := stations.map normalizeStations
  { types := ["diesel", "e5", "e10"]
    unit := "km"
    currency := "EUR"
    byPrice := jsSort cfg norm
    byDistance := norm }

/-- Detail-mode request loop (source lines 185-200): one request per
configured station id, in order; a response with `ok` false aborts with the
detail error message, a retained station gets its distance attached. -/
noncomputable def detailLoop (cfg : Config) (fetchDetail : String → DetailResp) :
    List String → Except String (List Station)
  | [] => Except.ok []
  | id :: rest =>
    let parsed := fetchDetail id
    if parsed.ok = false then Except.error "Error no fuel data or station id not found"
    else
      match detailLoop cfg fetchDetail rest with
      | Except.error e => Except.error e
      | Except.ok tail =>
        if checkStation cfg parsed.station then Except.ok (attachDist cfg parsed.station :: tail)
        else Except.ok tail

/-- Pipeline `getData` (source lines 170-215).  The fetch adapter is modelled
by passing the parsed area response and a map from station id to parsed
detail response; the empty `onlyStations` list selects area mode. -/
noncomputable def getData (cfg : Config) (areaResp : AreaResp)
    (fetchDetail : String → DetailResp) : Except String Result :=
  if cfg.onlyStations.length < 1 then
    if areaResp.ok = false then Except.error "Error no fuel data"
    else Except.ok (assembleResult cfg (areaResp.stations.filter (filterStations cfg)))
  else
    match detailLoop cfg fetchDetail cfg.onlyStations with
    | Except.error e => Except.error e
    | Except.ok stations => Except.ok (assembleResult cfg stations)

/-! Concrete objects used by witnesses and counterexamples. -/

/-- Concrete station: open, all prices positive, postal code 123 as in the
spec's formatting example. -/
def st1 : Station :=
  { id := "1", name := "N", brand := "B", street := "Bar", houseNumber := "4",
    postCode := 123, place := "Foo", lat := 0, lng := 0, isOpen := true,
    diesel := 1, e5 := 1, e10 := 1, dist := JsVal.num 3 }

/-- Concrete station: closed, all prices negative. -/
def stClosed : Station := { st1 with id := "2", isOpen := false, diesel := -1, e5 := -1, e10 := -1 }

/-- Concrete station: zero diesel price. -/
def stZero : Station := { st1 with id := "3", diesel := 0 }

/-- Concrete station: diesel price 2. -/
def stTwo : Station := { st1 with id := "4", diesel := 2 }

/-- Concrete base configuration (area mode, diesel only). -/
def cfgBase : Config :=
  { lat := 0, lng := 0, radius := 5, api_key := "k", sortBy := FuelType.diesel,
    types := [FuelType.diesel], showOpenOnly := false, onlyStations := [] }

/-- Concrete configuration with an empty required-types list and the
open-only flag set. -/
def cfgEmptyTypes : Config := { cfgBase with types := [], showOpenOnly := true }

/-! Helper lemmas about the filter loop. -/

/-- Characterization of the filter loop: it returns `false` exactly when some
listed fuel type has a non-positive price, or the list is non-empty while only
open stations are requested and the station is closed. -/
theorem filterStationsGo_eq_false (cfg : Config) (s : Station) (ts : List FuelType) :
    filterStationsGo cfg s ts = false ↔
      ((∃ t ∈ ts, s.price t ≤ 0) ∨
        (ts ≠ [] ∧ cfg.showOpenOnly = true ∧ s.isOpen = false)) := by
  induction ts with
  | nil => simp [filterStationsGo]
  | cons t rest ih =>
    simp only [filterStationsGo]
    by_cases hc : s.price t ≤ 0 ∨ (cfg.showOpenOnly = true ∧ s.isOpen = false)
    · rw [if_pos hc]
      constructor
      · intro _
        rcases hc with h | h
        · exact Or.inl ⟨t, List.mem_cons_self t rest, h⟩
        · exact Or.inr ⟨List.cons_ne_nil t rest, h⟩
      · intro _; rfl
    · rw [if_neg hc]
      push_neg at hc
      obtain ⟨hc1, hc2⟩ := hc
      rw [ih]
      constructor
      · rintro (⟨u, hu, hle⟩ | ⟨-, hso, hio⟩)
        · exact Or.inl ⟨u, List.mem_cons_of_mem t hu, hle⟩
        · exact absurd hio (hc2 hso)
      · rintro (⟨u, hu, hle⟩ | ⟨-, hso, hio⟩)
        · rcases List.mem_cons.mp hu with rfl | hu'
          · exact absurd hle (not_le.mpr hc1)
          · exact Or.inl ⟨u, hu', hle⟩
        · exact absurd hio (hc2 hso)

/-- The two filter loops agree on every type list. -/
theorem filterGo_eq_checkGo (cfg : Config) (s : Station) (ts : List FuelType) :
    filterStationsGo cfg s ts = checkStationGo cfg s ts := by
  induction ts with
  | nil => rfl
  | cons t rest ih => simp only [filterStationsGo, checkStationGo, ih]

/-- C9: the filter applied in area mode (`filterStations`) and the filter
applied in detail mode (`checkStation`) are extensionally equal: they return
the same boolean on every station and configuration, so both refine the
single Station Filter component. -/
theorem c9_filter_functions_equal (cfg : Config) (s : Station) :
    filterStations cfg s = checkStation cfg s :=
  filterGo_eq_checkGo cfg s cfg.types

/-- C10: with an empty required-types list the station filter returns `true`
and the station is retained, even when the open-only flag is set and the
station is closed, regardless of any price values. -/
theorem c10_empty_types_keeps (cfg : Config) (s : Station) (h : cfg.types = []) :
    filterStations cfg s = true := by
  unfold filterStations
  rw [h]
  rfl

/-- Witness for C10 at a concrete input: the empty-types configuration has
the open-only flag set, the station is closed with negative prices, and the
filter still keeps it. -/
theorem c10_witness :
    cfgEmptyTypes.types = [] ∧ cfgEmptyTypes.showOpenOnly = true ∧
      stClosed.isOpen = false ∧ filterStations cfgEmptyTypes stClosed = true :=
  ⟨rfl, rfl, rfl, c10_empty_types_keeps cfgEmptyTypes stClosed rfl⟩

/-- C2 counterexample: with an empty required-types list, the open-only flag
set and a closed station, the filter returns `true`, while the claimed
equivalence demands `false`; the claim fails at this concrete input. -/
theorem c2_counterexample :
    ¬ (filterStations cfgEmptyTypes stClosed = false ↔
        ((∃ t ∈ cfgEmptyTypes.types, stClosed.price t ≤ 0) ∨
          (cfgEmptyTypes.showOpenOnly = true ∧ stClosed.isOpen = false))) := by
  decide

/-- C2 amended: the station filter returns `false` iff at least one required
fuel type's price is less than or equal to zero, or the required-types list is
non-empty while the open-only flag is set and the station is not open (the
open-only test sits inside the loop over required types, so it never fires on
an empty list). -/
theorem c2_filter_characterization (cfg : Config) (s : Station) :
    filterStations cfg s = false ↔
      ((∃ t ∈ cfg.types, s.price t ≤ 0) ∨
        (cfg.types ≠ [] ∧ cfg.showOpenOnly = true ∧ s.isOpen = false)) :=
  filterStationsGo_eq_false cfg s cfg.types

/-- C4: the price comparator `sortByPrice` sorts `a` before `b` (negative
return) when `b`'s price on the sort field is zero, sorts `b` before `a`
(positive return) when `a`'s price is zero and `b`'s is not, and otherwise
returns the ascending numeric price difference. -/
theorem c4_sort_comparator (cfg : Config) (a b : NStation) :
    (b.price cfg.sortBy = 0 → sortByPrice cfg a b < 0) ∧
    (a.price cfg.sortBy = 0 → b.price cfg.sortBy ≠ 0 → 0 < sortByPrice cfg a b) ∧
    (a.price cfg.sortBy ≠ 0 → b.price cfg.sortBy ≠ 0 →
      sortByPrice cfg a b = a.price cfg.sortBy - b.price cfg.sortBy) := by
  refine ⟨?_, ?_, ?_⟩
  · intro hb
    unfold sortByPrice
    rw [if_pos hb]
    norm_num [minSafeInteger]
  · intro ha hb
    unfold sortByPrice
    rw [if_neg hb, if_pos ha]
    norm_num [maxSafeInteger]
  · intro ha hb
    unfold sortByPrice
    rw [if_neg hb, if_neg ha]

/-- Witness for C4 at concrete inputs: a zero-priced right argument yields a
negative weight, a zero-priced left argument against a positive price yields
a positive weight, and two positive prices yield their difference. -/
theorem c4_witness :
    ((normalizeStations stZero).price cfgBase.sortBy = 0 ∧
      sortByPrice cfgBase (normalizeStations st1) (normalizeStations stZero) < 0) ∧
    ((normalizeStations stZero).price cfgBase.sortBy = 0 ∧
      (normalizeStations st1).price cfgBase.sortBy ≠ 0 ∧
      0 < sortByPrice cfgBase (normalizeStations stZero) (normalizeStations st1)) ∧
    ((normalizeStations st1).price cfgBase.sortBy ≠ 0 ∧
      (normalizeStations stTwo).price cfgBase.sortBy ≠ 0 ∧
      sortByPrice cfgBase (normalizeStations st1) (normalizeStations stTwo) =
        (normalizeStations st1).price cfgBase.sortBy -
          (normalizeStations stTwo).price cfgBase.sortBy) :=
  ⟨⟨by decide, (c4_sort_comparator cfgBase (normalizeStations st1) (normalizeStations stZero)).1
      (by decide)⟩,
   ⟨by decide, by decide,
      (c4_sort_comparator cfgBase (normalizeStations stZero) (normalizeStations st1)).2.1
        (by decide) (by decide)⟩,
   ⟨by decide, by decide,
      (c4_sort_comparator cfgBase (normalizeStations st1) (normalizeStations stTwo)).2.2
        (by decide) (by decide)⟩⟩

/-! Decimal-representation length lemmas for the address formatting claim. -/

/-- The digit list of zero is empty for every fuel value. -/
theorem decDigitsAux_zero (f : ℕ) : decDigitsAux f 0 = [] := by
  cases f <;> simp [decDigitsAux]

/-- Length of the digit list: a number in `[10 ^ k, 10 ^ (k + 1))` has
`k + 1` decimal digits, provided enough fuel. -/
theorem decDigitsAux_len : ∀ (k f n : ℕ), n ≤ f → 10 ^ k ≤ n → n < 10 ^ (k + 1) →
    (decDigitsAux f n).length = k + 1 := by
  intro k
  induction k with
  | zero =>
    intro f n hf h1 h2
    cases f with
    | zero => omega
    | succ f' =>
      have hn0 : n ≠ 0 := by
        have h1' : 1 ≤ n := by simpa using h1
        omega
      simp only [decDigitsAux, if_neg hn0]
      have hdiv : n / 10 = 0 := Nat.div_eq_of_lt (by simpa using h2)
      rw [hdiv, decDigitsAux_zero]
      rfl
  | succ k ih =>
    intro f n hf h1 h2
    have h10 : 10 ≤ n := by
      have hp : (10 : ℕ) ^ 1 ≤ 10 ^ (k + 1) := Nat.pow_le_pow_right (by norm_num) (by omega)
      rw [pow_one] at hp
      exact le_trans hp h1
    cases f with
    | zero => omega
    | succ f' =>
      have hn0 : n ≠ 0 := by omega
      simp only [decDigitsAux, if_neg hn0, List.length_cons]
      rw [ih f' (n / 10) ?_ ?_ ?_]
      · have := Nat.div_lt_self (by omega : 0 < n) (by norm_num : 1 < 10)
        omega
      · rw [Nat.le_div_iff_mul_le (by norm_num)]
        calc 10 ^ k * 10 = 10 ^ (k + 1) := (pow_succ 10 k).symm
          _ ≤ n := h1
      · rw [Nat.div_lt_iff_lt_mul (by norm_num)]
        calc n < 10 ^ (k + 1 + 1) := h2
          _ = 10 ^ (k + 1) * 10 := pow_succ 10 (k + 1)

/-- Length of the decimal representation of a number with `k + 1` digits. -/
theorem decRepr_data_len (n k : ℕ) (h1 : 10 ^ k ≤ n) (h2 : n < 10 ^ (k + 1)) :
    (decRepr n).data.length = k + 1 := by
  have hn0 : n ≠ 0 := by
    have := Nat.one_le_pow k 10 (by norm_num)
    omega
  unfold decRepr
  rw [if_neg hn0]
  show (((decDigitsAux n n).map Nat.digitChar).reverse).length = k + 1
  rw [List.length_reverse, List.length_map]
  exact decDigitsAux_len k n n le_rfl h1 h2

/-- C1 counterexample: at the claim's own example input (postal code 123,
place "Foo", street "Bar", house number "4") the code produces
`"0123 Foo - Bar 4"`, not the claimed `"00123 Foo - Bar 4"`: the code
prepends a single zero and keeps the last five characters, which pads a
three-digit postal code to only four digits. -/
theorem c1_counterexample :
    (normalizeStations st1).address = "0123 Foo - Bar 4" ∧
      (normalizeStations st1).address ≠ "00123 Foo - Bar 4" := by
  constructor
  · decide
  · decide

/-- C1 amended: for every raw station whose postal code lies between 1000 and
99999 the Normalizer sets the address field to the postal code zero-padded to
five digits, followed by place, ' - ', street and house number; the code
prepends a single '0' and keeps the last five characters, so postal codes
with fewer than four digits are not padded to five (123 yields
"0123 Foo - Bar 4"). -/
theorem c1_address_format (s : Station) (h1 : 1000 ≤ s.postCode) (h2 : s.postCode < 100000) :
    (normalizeStations s).address =
      zeroPad5 s.postCode ++ " " ++ s.place ++ " - " ++ s.street ++ " " ++ s.houseNumber := by
  have key : jsSliceLast ("0" ++ decRepr s.postCode) 5 = zeroPad5 s.postCode := by
    have hdata : ("0" ++ decRepr s.postCode).data = '0' :: (decRepr s.postCode).data := by
      rw [String.data_append]
      rfl
    by_cases hc : s.postCode < 10000
    · have hlen : (decRepr s.postCode).data.length = 4 :=
        decRepr_data_len _ 3 (by norm_num; omega) (by norm_num; omega)
      unfold jsSliceLast zeroPad5
      rw [hdata, if_neg (by omega)]
      apply String.ext
      rw [String.data_append]
      simp only [List.length_cons, hlen]
      show ('0' :: (decRepr s.postCode).data).drop 0 =
        (String.mk (List.replicate 1 '0')).data ++ (decRepr s.postCode).data
      rfl
    · have hlen : (decRepr s.postCode).data.length = 5 :=
        decRepr_data_len _ 4 (by norm_num; omega) (by norm_num; omega)
      unfold jsSliceLast zeroPad5
      rw [hdata, if_pos (by omega)]
      apply String.ext
      simp only [List.length_cons, hlen]
      show ('0' :: (decRepr s.postCode).data).drop 1 = (decRepr s.postCode).data
      rfl
  simp only [normalizeStations, key]

/-- Witness for C1 at a concrete input: a station with the four-digit postal
code 1067 is formatted with a five-digit zero-padded code. -/
theorem c1_witness :
    1000 ≤ ({ st1 with postCode := 1067 } : Station).postCode ∧
      ({ st1 with postCode := 1067 } : Station).postCode < 100000 ∧
      (normalizeStations { st1 with postCode := 1067 }).address =
        zeroPad5 ({ st1 with postCode := 1067 } : Station).postCode ++ " " ++
          ({ st1 with postCode := 1067 } : Station).place ++ " - " ++
          ({ st1 with postCode := 1067 } : Station).street ++ " " ++
          ({ st1 with postCode := 1067 } : Station).houseNumber :=
  ⟨by decide, by decide,
    c1_address_format { st1 with postCode := 1067 } (by decide) (by decide)⟩

/-- C8: the distance function agrees with the specification's haversine
formula (Earth radius 6,371,000 meters, degrees converted to radians, result
in kilometers), and the distance from any point to itself is exactly zero. -/
theorem c8_haversine_distance :
    (∀ p q : Pos, getDistance p q = distanceKmSpec p q) ∧
      (∀ p : Pos, getDistance p p = 0) := by
  constructor
  · intro p q
    simp only [getDistance, distanceKmSpec, hav, earth]
    have hscale : (6371e3 : ℝ) = 6371000 := by norm_num
    rw [hscale]
    have harg : Real.sin (deg2rad (q.lat - p.lat) / 2) * Real.sin (deg2rad (q.lat - p.lat) / 2) +
        Real.cos (deg2rad p.lat) * Real.cos (deg2rad q.lat) *
          Real.sin (deg2rad (q.lng - p.lng) / 2) * Real.sin (deg2rad (q.lng - p.lng) / 2) =
        Real.sin (deg2rad (q.lat - p.lat) / 2) ^ 2 +
          Real.cos (deg2rad p.lat) * Real.cos (deg2rad q.lat) *
            Real.sin (deg2rad (q.lng - p.lng) / 2) ^ 2 := by ring
    rw [harg]
  · intro p
    simp [getDistance, deg2rad, atan2, Real.sin_zero, Real.sqrt_zero, Real.sqrt_one,
      Real.arctan_zero]

/-- The list length test `length < 1` fails on every non-empty list. -/
theorem not_length_lt_one {l : List String} (h : l ≠ []) : ¬ l.length < 1 := by
  cases l with
  | nil => exact absurd rfl h
  | cons a t => simp

/-- The detail loop aborts with the detail error message as soon as any
response in the list has a non-true `ok` field. -/
theorem detailLoop_err (cfg : Config) (f : String → DetailResp) :
    ∀ ids : List String, (∃ id ∈ ids, (f id).ok = false) →
      detailLoop cfg f ids = Except.error "Error no fuel data or station id not found" := by
  intro ids
  induction ids with
  | nil => rintro ⟨u, hu, -⟩; exact absurd hu (List.not_mem_nil u)
  | cons id rest ih =>
    rintro ⟨u, hu, hok⟩
    by_cases h : (f id).ok = false
    · simp [detailLoop, h]
    · rcases List.mem_cons.mp hu with rfl | hu'
      · exact absurd hok h
      · have hrest := ih ⟨u, hu', hok⟩
        simp [detailLoop, h, hrest]

/-- When every response is ok, the detail loop returns, in input order, the
stations that pass the detail filter, each with its distance attached. -/
theorem detailLoop_ok (cfg : Config) (f : String → DetailResp) :
    ∀ ids : List String, (∀ id ∈ ids, (f id).ok = true) →
      detailLoop cfg f ids = Except.ok (ids.filterMap fun id =>
        if checkStation cfg (f id).station then some (attachDist cfg (f id).station)
        else none) := by
  intro ids
  induction ids with
  | nil => intro _; rfl
  | cons id rest ih =>
    intro h
    have hid : (f id).ok = true := h id (List.mem_cons_self id rest)
    have hrest := ih (fun u hu => h u (List.mem_cons_of_mem id hu))
    by_cases hcs : checkStation cfg (f id).station
    · simp [detailLoop, hid, hrest, hcs, List.filterMap_cons]
    · simp [detailLoop, hid, hrest, hcs, List.filterMap_cons]

/-- Every station delivered by a successful detail loop is some raw station
with the locally computed distance attached. -/
theorem detailLoop_ok_shape (cfg : Config) (f : String → DetailResp) :
    ∀ (ids : List String) (sts : List Station), detailLoop cfg f ids = Except.ok sts →
      ∀ s ∈ sts, ∃ w : Station, s = attachDist cfg w := by
  intro ids
  induction ids with
  | nil =>
    intro sts h s hs
    simp [detailLoop] at h
    subst h
    exact absurd hs (List.not_mem_nil s)
  | cons id rest ih =>
    intro sts h s hs
    by_cases hok : (f id).ok = false
    · simp [detailLoop, hok] at h
    · cases hd : detailLoop cfg f rest with
      | error e => simp [detailLoop, hok, hd] at h
      | ok tail =>
        by_cases hcs : checkStation cfg (f id).station
        · simp [detailLoop, hok, hd, hcs] at h
          subst h
          rcases List.mem_cons.mp hs with rfl | hs'
          · exact ⟨(f id).station, rfl⟩
          · exact ih tail hd s hs'
        · simp [detailLoop, hok, hd, hcs] at h
          subst h
          exact ih tail hd s hs

/-- Every successful run returns the assembled result of some station list. -/
theorem getData_ok_shape (cfg : Config) (a : AreaResp) (f : String → DetailResp)
    (res : Result) (h : getData cfg a f = Except.ok res) :
    ∃ sts, res = assembleResult cfg sts := by
  unfold getData at h
  by_cases h1 : cfg.onlyStations.length < 1
  · rw [if_pos h1] at h
    by_cases h2 : a.ok = false
    · rw [if_pos h2] at h
      simp at h
    · rw [if_neg h2] at h
      injection h with h'
      exact ⟨_, h'.symm⟩
  · rw [if_neg h1] at h
    cases hd : detailLoop cfg f cfg.onlyStations with
    | error e => rw [hd] at h; simp at h
    | ok sts => rw [hd] at h; injection h with h'; exact ⟨sts, h'.symm⟩

/-- C5: on every successful invocation the `byPrice` sequence is a
permutation of the `byDistance` sequence — the same multiset of normalized
stations with identical field values, none dropped or duplicated — and
`byPrice` is exactly the sorted copy of `byDistance`, which itself is left in
its original (unsorted) order. -/
theorem c5_byPrice_perm_byDistance (cfg : Config) (a : AreaResp) (f : String → DetailResp)
    (res : Result) (h : getData cfg a f = Except.ok res) :
    res.byPrice.Perm res.byDistance ∧ res.byPrice = jsSort cfg res.byDistance := by
  obtain ⟨sts, rfl⟩ := getData_ok_shape cfg a f res h
  refine ⟨?_, rfl⟩
  exact List.perm_insertionSort (fun x y => sortByPrice cfg x y ≤ 0) (sts.map normalizeStations)

/-- C6: a non-true `ok` field in the area response, or in any one detail
response for a configured station id, aborts the whole pipeline with the
distinguishing error message for that mode, producing no partial result. -/
theorem c6_abort_on_error (cfg : Config) (a : AreaResp) (f : String → DetailResp) :
    (cfg.onlyStations = [] → a.ok = false →
      getData cfg a f = Except.error "Error no fuel data") ∧
    (cfg.onlyStations ≠ [] → (∃ id ∈ cfg.onlyStations, (f id).ok = false) →
      getData cfg a f = Except.error "Error no fuel data or station id not found") := by
  constructor
  · intro h0 hok
    simp [getData, h0, hok]
  · intro hne hex
    have hloop := detailLoop_err cfg f cfg.onlyStations hex
    simp [getData, not_length_lt_one hne, hloop]

/-- C7: in detail mode with all responses ok, one detail request is taken per
configured identifier, in the given order, and `byDistance` lists exactly the
stations passing the filter in input-identifier order. -/
theorem c7_detail_preserves_order (cfg : Config) (a : AreaResp) (f : String → DetailResp)
    (hne : cfg.onlyStations ≠ []) (hok : ∀ id ∈ cfg.onlyStations, (f id).ok = true) :
    (getData cfg a f).map Result.byDistance =
      Except.ok ((cfg.onlyStations.filterMap fun id =>
        if checkStation cfg (f id).station then some (attachDist cfg (f id).station)
        else none).map normalizeStations) := by
  have hloop := detailLoop_ok cfg f cfg.onlyStations hok
  simp [getData, not_length_lt_one hne, hloop, assembleResult, Except.map]

/-- C3 amended: in detail mode, every station retained in the result carries
in its distance field the string produced by `toFixed(1)` from the
great-circle distance between the station and the configured origin — a
string rendering rounded to one decimal place, not a number. -/
theorem c3_distance_is_string (cfg : Config) (a : AreaResp) (f : String → DetailResp)
    (res : Result) (hne : cfg.onlyStations ≠ []) (h : getData cfg a f = Except.ok res) :
    ∀ st ∈ res.byDistance, st.distance =
      JsVal.str (toFixed1 (getDistance ⟨st.lat, st.lng⟩ ⟨cfg.lat, cfg.lng⟩)) := by
  unfold getData at h
  rw [if_neg (not_length_lt_one hne)] at h
  cases hd : detailLoop cfg f cfg.onlyStations with
  | error e => rw [hd] at h; simp at h
  | ok sts =>
    rw [hd] at h
    injection h with h'
    subst h'
    intro st hst
    simp only [assembleResult, List.mem_map] at hst
    obtain ⟨w', hw', rfl⟩ := hst
    obtain ⟨w, rfl⟩ := detailLoop_ok_shape cfg f cfg.onlyStations sts hd w' hw'
    rfl

/-! Concrete pipeline scenarios for witnesses and counterexamples. -/

/-- Concrete successful area response with one station. -/
def areaOk : AreaResp := { ok := true, stations := [st1] }

/-- Concrete failed area response. -/
def areaBad : AreaResp := { ok := false, stations := [st1] }

/-- Concrete area response unused by detail-mode runs. -/
def areaDummy : AreaResp := { ok := true, stations := [] }

/-- Concrete detail oracle answering every id with an ok response. -/
def fDet : String → DetailResp :=
  fun id => if id = "a" then { ok := true, station := st1 } else { ok := true, station := stTwo }

/-- Concrete detail oracle failing on every id other than "a". -/
def fBad : String → DetailResp :=
  fun id => if id = "a" then { ok := true, station := st1 } else { ok := false, station := stTwo }

/-- Concrete detail-mode configuration with two station ids. -/
def cfgDetail : Config := { cfgBase with onlyStations := ["a", "b"] }

/-- Concrete detail-mode configuration with one station id. -/
def cfgDetail1 : Config := { cfgBase with onlyStations := ["a"] }

/-- Witness for C5 at a concrete area-mode input: the returned `byPrice` is a
permutation of `byDistance` and is its sorted copy. -/
theorem c5_witness :
    getData cfgBase areaOk fDet = Except.ok (assembleResult cfgBase [st1]) ∧
      ((assembleResult cfgBase [st1]).byPrice.Perm (assembleResult cfgBase [st1]).byDistance ∧
        (assembleResult cfgBase [st1]).byPrice =
          jsSort cfgBase (assembleResult cfgBase [st1]).byDistance) :=
  ⟨rfl, c5_byPrice_perm_byDistance cfgBase areaOk fDet (assembleResult cfgBase [st1]) rfl⟩

/-- Witness for C6 at concrete inputs: a failed area response aborts with the
area message, and a failure on the second of two detail ids aborts with the
detail message even though the first station was fetched successfully. -/
theorem c6_witness :
    getData cfgBase areaBad fDet = Except.error "Error no fuel data" ∧
      getData cfgDetail areaDummy fBad =
        Except.error "Error no fuel data or station id not found" :=
  ⟨(c6_abort_on_error cfgBase areaBad fDet).1 rfl rfl,
    (c6_abort_on_error cfgDetail areaDummy fBad).2 (by decide) ⟨"b", by decide, by decide⟩⟩

/-- Witness for C7 at a concrete detail-mode input with two station ids, both
responding ok. -/
theorem c7_witness :
    cfgDetail.onlyStations ≠ [] ∧ (∀ id ∈ cfgDetail.onlyStations, (fDet id).ok = true) ∧
      (getData cfgDetail areaDummy fDet).map Result.byDistance =
        Except.ok ((cfgDetail.onlyStations.filterMap fun id =>
          if checkStation cfgDetail (fDet id).station
          then some (attachDist cfgDetail (fDet id).station)
          else none).map normalizeStations) :=
  ⟨by decide, by decide,
    c7_detail_preserves_order cfgDetail areaDummy fDet (by decide) (by decide)⟩

/-- C3 counterexample: a concrete successful detail-mode run retains one
station whose distance field is not a numeric value (it is the string built
by `toFixed(1)`), contradicting the claim that every retained station carries
a numeric distance. -/
theorem c3_counterexample :
    getData cfgDetail1 areaDummy fDet =
        Except.ok (assembleResult cfgDetail1 [attachDist cfgDetail1 st1]) ∧
      (assembleResult cfgDetail1 [attachDist cfgDetail1 st1]).byDistance =
        [normalizeStations (attachDist cfgDetail1 st1)] ∧
      (normalizeStations (attachDist cfgDetail1 st1)).distance.isNum = false :=
  ⟨rfl, rfl, rfl⟩

/-- Witness for C3 at a concrete detail-mode input. -/
theorem c3_witness :
    cfgDetail1.onlyStations ≠ [] ∧
      getData cfgDetail1 areaDummy fDet =
        Except.ok (assembleResult cfgDetail1 [attachDist cfgDetail1 st1]) ∧
      ∀ st ∈ (assembleResult cfgDetail1 [attachDist cfgDetail1 st1]).byDistance,
        st.distance =
          JsVal.str (toFixed1 (getDistance ⟨st.lat, st.lng⟩ ⟨cfgDetail1.lat, cfgDetail1.lng⟩)) :=
  ⟨by decide, rfl,
    c3_distance_is_string cfgDetail1 areaDummy fDet
      (assembleResult cfgDetail1 [attachDist cfgDetail1 st1]) (by decide) rfl⟩

end MMMFuel
